import Mathlib

/-!
Shallow embedding of the connection lifecycle manager of `src/app.js`
(WhatsApp MCP server).

The JavaScript module keeps its lifecycle state in module-level variables:

  let client = null;                 -- the current Capability Client
  let isClientReady = false;
  let qrCodeString = null;
  let initializationAttempts = 0;
  const MAX_INIT_ATTEMPTS = 3;
  let isInitializing = false;

We model this mutable state as a record `MgrState`.  Creation of a new
Capability Client (`client = createClient()`) is modelled by incrementing a
generation counter `clientGen`; `client.destroy()` is best-effort and does not
change any tracked state.  Calls to `cleanSession()` (which erases the session
store directory) are counted in `eraseCount`.  Each
`setTimeout(() => initializeClient(), d)` appends the delay `d` to the
`scheduled` queue of pending retry timers; firing the oldest timer pops it and
runs `initializeClient`.  The ghost field `phase` records the spec-level
lifecycle state implied by the last transition (the JS code has no such
variable; the field only annotates which event ran last and changes no
behaviour).
-/

/-- MAX_INIT_ATTEMPTS in src/app.js (line 47). -/
def MAX_INIT_ATTEMPTS : Nat := 3

/-- Delay (ms) of the retry scheduled by the auth_failure handler and the
initialize() catch block (src/app.js lines 140, 167). -/
def AUTH_FAILURE_RETRY_DELAY : Nat := 5000

/-- Delay (ms) of the reconnect scheduled by the disconnected handler
(src/app.js line 151). -/
def DISCONNECT_RETRY_DELAY : Nat := 10000

/-- Delay (ms) of the re-initialization scheduled by the /clean-session
endpoint (src/app.js line 236). -/
def CLEAN_SESSION_RETRY_DELAY : Nat := 2000

/-- Spec-level lifecycle states (ghost annotation; see `MgrState.phase`). -/
inductive Phase where
  | idle
  | initializing
  | awaitingAuth
  | authenticated
  | ready
  | failed
  | disconnected
  deriving DecidableEq, Repr

/-- The mutable module-level state of the lifecycle manager. -/
structure MgrState where
  /-- Number of Capability Clients created so far (`client = createClient()`);
  0 means `client` is still null. -/
  clientGen : Nat
  /-- `isClientReady` -/
  isClientReady : Bool
  /-- `qrCodeString` (`none` = JS `null`) -/
  qrCodeString : Option String
  /-- `initializationAttempts` -/
  initializationAttempts : Nat
  /-- `isInitializing` -/
  isInitializing : Bool
  /-- Number of `cleanSession()` calls performed (session-store erases). -/
  eraseCount : Nat
  /-- Delays of the pending `setTimeout(() => initializeClient(), d)` timers,
  oldest first. -/
  scheduled : List Nat
  /-- Ghost: spec-level lifecycle state implied by the last transition. -/
  phase : Phase
  deriving DecidableEq, Repr

/-- The state at module load (src/app.js lines 43-48). -/
def initialState : MgrState :=
  { clientGen := 0
    isClientReady := false
    qrCodeString := none
    initializationAttempts := 0
    isInitializing := false
    eraseCount := 0
    scheduled := []
    phase := Phase.idle }

/-- `initializeClient()` (src/app.js lines 83-109), up to the point where the
new client is created and its handlers attached.  The early return when
`isInitializing` is the re-entrancy guard; the `initializationAttempts >=
MAX_INIT_ATTEMPTS` branch erases the session store and resets the counter
before the new attempt is counted; destroying the previous client is
best-effort and tracked state is unchanged by it; `client = createClient()`
is one more client generation. -/
def initializeClient (s : MgrState) : MgrState :=
  if s.isInitializing then s
  else
    let s1 :=
      if s.initializationAttempts ≥ MAX_INIT_ATTEMPTS then
        { s with eraseCount := s.eraseCount + 1, initializationAttempts := 0 }
      else s
    { s1 with
      isInitializing := true
      initializationAttempts := s1.initializationAttempts + 1
      clientGen := s1.clientGen + 1
      phase := Phase.initializing }

/-- qr event handler (src/app.js lines 112-116): stores the code
in `qrCodeString`. -/
def onQr (code : String) (s : MgrState) : MgrState :=
  { s with qrCodeString := some code, phase := Phase.awaitingAuth }

/-- authenticated event handler (src/app.js lines 118-121):
clears `qrCodeString`. -/
def onAuthenticated (s : MgrState) : MgrState :=
  { s with qrCodeString := none, phase := Phase.authenticated }

/-- ready event handler (src/app.js lines 123-129): sets
readiness, clears the code, resets the attempt counter, clears the
initialization lock. -/
def onReady (s : MgrState) : MgrState :=
  { s with
    isClientReady := true
    qrCodeString := none
    initializationAttempts := 0
    isInitializing := false
    phase := Phase.ready }

/-- auth_failure event handler (src/app.js lines 131-142):
clears readiness and the initialization lock; when
`initializationAttempts < MAX_INIT_ATTEMPTS` it erases the session store and
schedules one retry after 5000 ms, otherwise it does nothing more.
`qrCodeString` is not touched. -/
def onAuthFailure (s : MgrState) : MgrState :=
  if s.initializationAttempts < MAX_INIT_ATTEMPTS then
    { s with
      isClientReady := false
      isInitializing := false
      eraseCount := s.eraseCount + 1
      scheduled := s.scheduled ++ [AUTH_FAILURE_RETRY_DELAY]
      phase := Phase.failed }
  else
    { s with
      isClientReady := false
      isInitializing := false
      phase := Phase.failed }

/-- disconnected event handler (src/app.js lines 144-153):
clears readiness; unless the reason is the explicit-logout sentinel
`"LOGOUT"`, schedules one reconnect after 10000 ms.  `qrCodeString` and the
attempt counter are not touched. -/
def onDisconnected (reason : String) (s : MgrState) : MgrState :=
  if reason = "LOGOUT" then
    { s with isClientReady := false, phase := Phase.disconnected }
  else
    { s with
      isClientReady := false
      scheduled := s.scheduled ++ [DISCONNECT_RETRY_DELAY]
      phase := Phase.disconnected }

/-- The catch block of `await client.initialize()` (src/app.js lines
159-169): clears the initialization lock; when attempts remain, schedules one
retry after 5000 ms (no session erase on this path). -/
def onInitializeError (s : MgrState) : MgrState :=
  if s.initializationAttempts < MAX_INIT_ATTEMPTS then
    { s with
      isInitializing := false
      scheduled := s.scheduled ++ [AUTH_FAILURE_RETRY_DELAY]
      phase := Phase.failed }
  else
    { s with isInitializing := false, phase := Phase.failed }

/-- Fire the oldest pending retry timer, if any: the timer is consumed and
its callback `() => initializeClient()` runs. -/
def fireScheduled (s : MgrState) : MgrState :=
  match s.scheduled with
  | [] => s
  | _ :: rest => initializeClient { s with scheduled := rest }

/-- The 503 rejection body produced by `requireClientReady`
(src/app.js lines 173-182). -/
structure Rejection where
  status : Nat
  error : String
  qrCode : Option String
  message : String
  deriving DecidableEq, Repr

/-- JavaScript truthiness of `qrCodeString`: `null` and `""` are falsy. -/
def jsTruthy : Option String → Bool
  | none => false
  | some q => !(q == "")

/-- `requireClientReady` middleware (src/app.js lines 173-182): a pure read of
the state; passes (`none`) exactly when `isClientReady`, otherwise rejects
with status 503, the current `qrCodeString`, and a message chosen by the JS
truthiness of `qrCodeString`. -/
def requireClientReady (s : MgrState) : Option Rejection :=
  if s.isClientReady then none
  else
    some
      { status := 503
        error := "WhatsApp client not ready"
        qrCode := s.qrCodeString
        message :=
          if jsTruthy s.qrCodeString then "Please scan QR code"
          else "Client initializing..." }

/-- Body of `GET /health` (src/app.js lines 190-199). -/
structure HealthResponse where
  status : String
  qrCode : Option String
  initializationAttempts : Nat
  maxAttempts : Nat
  isInitializing : Bool
  deriving DecidableEq, Repr

/-- `GET /health` handler (src/app.js lines 190-199). -/
def getHealth (s : MgrState) : HealthResponse :=
  { status :=
      if s.isClientReady then "ready"
      else if s.isInitializing then "initializing"
      else "not_ready"
    qrCode := s.qrCodeString
    initializationAttempts := s.initializationAttempts
    maxAttempts := MAX_INIT_ATTEMPTS
    isInitializing := s.isInitializing }

/-- `POST /restart` handler (src/app.js lines 202-217): clears readiness,
resets the attempt counter, destroys the current client (best-effort, no
tracked state change), then calls `initializeClient()` — which still contains
the `isInitializing` re-entrancy guard. -/
def postRestart (s : MgrState) : MgrState :=
  initializeClient { s with isClientReady := false, initializationAttempts := 0 }

/-- `POST /clean-session` handler (src/app.js lines 220-239): destroys the
client, erases the session store, clears readiness, resets the attempt
counter, and schedules a re-initialization after 2000 ms. -/
def postCleanSession (s : MgrState) : MgrState :=
  { s with
    eraseCount := s.eraseCount + 1
    isClientReady := false
    initializationAttempts := 0
    scheduled := s.scheduled ++ [CLEAN_SESSION_RETRY_DELAY] }

/-- Responses of `POST /logout`. -/
inductive LogoutResponse where
  /-- 503 from the `requireClientReady` gate. -/
  | rejected (r : Rejection)
  /-- 200: `Logged out successfully`. -/
  | success
  /-- 500 from the error-handling middleware (src/app.js lines 595-602),
  carrying the error message. -/
  | serverError (message : String)
  deriving DecidableEq, Repr

/-- `POST /logout` handler (src/app.js lines 242-246) composed with the
`requireClientReady` gate and the error middleware.  `logoutResult` is the
outcome of `await client.logout()`: on an error, `asyncHandler` forwards it to
the error middleware (500 response) and the line `isClientReady = false` never
runs. -/
def postLogout (logoutResult : Except String Unit) (s : MgrState) :
    MgrState × LogoutResponse :=
  match requireClientReady s with
  | some r => (s, LogoutResponse.rejected r)
  | none =>
    match logoutResult with
    | Except.error e => (s, LogoutResponse.serverError e)
    | Except.ok _ => ({ s with isClientReady := false }, LogoutResponse.success)

/-- One lifecycle operation of the manager: an `initializeClient` call (direct
or from a timer), a Capability Client event, or an admin endpoint. -/
inductive Step : MgrState → MgrState → Prop where
  | init (s : MgrState) : Step s (initializeClient s)
  | fire (s : MgrState) : Step s (fireScheduled s)
  | qr (code : String) (s : MgrState) : Step s (onQr code s)
  | authenticated (s : MgrState) : Step s (onAuthenticated s)
  | ready (s : MgrState) : Step s (onReady s)
  | authFailure (s : MgrState) : Step s (onAuthFailure s)
  | disconnected (reason : String) (s : MgrState) : Step s (onDisconnected reason s)
  | initializeError (s : MgrState) : Step s (onInitializeError s)
  | restart (s : MgrState) : Step s (postRestart s)
  | cleanSession (s : MgrState) : Step s (postCleanSession s)
  | logout (o : Except String Unit) (s : MgrState) : Step s (postLogout o s).1

/-- States reachable from module load by lifecycle operations. -/
inductive Reachable : MgrState → Prop where
  | start : Reachable initialState
  | step {s t : MgrState} : Reachable s → Step s t → Reachable t

/-! Helper lemmas. -/

/-- An `initializeClient` call keeps the attempt counter within the ceiling:
either the re-entrancy guard fires (state unchanged), or the counter was below
the ceiling and is incremented, or it was at the ceiling and is reset to 0
before being incremented. -/
theorem initializeClient_attempts_le {s : MgrState}
    (h : s.initializationAttempts ≤ MAX_INIT_ATTEMPTS) :
    (initializeClient s).initializationAttempts ≤ MAX_INIT_ATTEMPTS := by
  unfold initializeClient
  split
  · exact h
  · simp only
    split
    · simp [MAX_INIT_ATTEMPTS]
    · rename_i hlt
      simp only [ge_iff_le, not_le, MAX_INIT_ATTEMPTS] at hlt ⊢
      omega

/-- Firing a pending timer keeps the attempt counter within the ceiling. -/
theorem fireScheduled_attempts_le {s : MgrState}
    (h : s.initializationAttempts ≤ MAX_INIT_ATTEMPTS) :
    (fireScheduled s).initializationAttempts ≤ MAX_INIT_ATTEMPTS := by
  unfold fireScheduled
  split
  · exact h
  · exact initializeClient_attempts_le h

/-- The logout endpoint never changes the attempt counter. -/
theorem postLogout_attempts (o : Except String Unit) (s : MgrState) :
    ((postLogout o s).1).initializationAttempts = s.initializationAttempts := by
  unfold postLogout
  split
  · rfl
  · split <;> rfl

/-- Every reachable state keeps the attempt counter within the ceiling. -/
theorem reachable_attempts_le {s : MgrState} (h : Reachable s) :
    s.initializationAttempts ≤ MAX_INIT_ATTEMPTS := by
  induction h with
  | start => simp [initialState, MAX_INIT_ATTEMPTS]
  | step _ hst ih =>
    cases hst with
    | init t => exact initializeClient_attempts_le ih
    | fire t => exact fireScheduled_attempts_le ih
    | qr code t => exact ih
    | authenticated t => exact ih
    | ready t => simp [onReady, MAX_INIT_ATTEMPTS]
    | authFailure t =>
      unfold onAuthFailure
      split <;> exact ih
    | disconnected reason t =>
      unfold onDisconnected
      split <;> exact ih
    | initializeError t =>
      unfold onInitializeError
      split <;> exact ih
    | restart t =>
      exact initializeClient_attempts_le (by simp [MAX_INIT_ATTEMPTS])
    | cleanSession t => simp [postCleanSession, MAX_INIT_ATTEMPTS]
    | logout o => exact (postLogout_attempts _ _).le.trans ih

/-- An `initializeClient` call preserves the property that the QR payload is
null whenever the ghost phase is Authenticated or Ready. -/
theorem initializeClient_qr_phase {s : MgrState}
    (h : s.phase = Phase.authenticated ∨ s.phase = Phase.ready →
      s.qrCodeString = none) :
    (initializeClient s).phase = Phase.authenticated ∨
      (initializeClient s).phase = Phase.ready →
      (initializeClient s).qrCodeString = none := by
  unfold initializeClient
  split
  · exact h
  · intro hc
    simp only at hc
    rcases hc with hc | hc <;> simp at hc

/-- Every reachable state has a null QR payload while the ghost phase is
Authenticated or Ready. -/
theorem reachable_qr_phase {s : MgrState} (h : Reachable s) :
    s.phase = Phase.authenticated ∨ s.phase = Phase.ready →
      s.qrCodeString = none := by
  induction h with
  | start => intro; rfl
  | step _ hst ih =>
    cases hst with
    | init t => exact initializeClient_qr_phase ih
    | fire t =>
      unfold fireScheduled
      split
      · exact ih
      · exact initializeClient_qr_phase ih
    | qr code t =>
      intro hc
      rcases hc with hc | hc <;> simp [onQr] at hc
    | authenticated t => intro; rfl
    | ready t => intro; rfl
    | authFailure t =>
      unfold onAuthFailure
      split <;> (intro hc; rcases hc with hc | hc <;> simp at hc)
    | disconnected reason t =>
      unfold onDisconnected
      split <;> (intro hc; rcases hc with hc | hc <;> simp at hc)
    | initializeError t =>
      unfold onInitializeError
      split <;> (intro hc; rcases hc with hc | hc <;> simp at hc)
    | restart t => exact initializeClient_qr_phase ih
    | cleanSession t => exact ih
    | logout o t =>
      unfold postLogout
      split
      · exact ih
      · split <;> exact ih

/-! Claim theorems. -/

/-- C1: for every sequence of lifecycle operations the attempt counter stays
in [0, maxAttempts]; and whenever `initializeClient` is entered with the
counter at or beyond `MAX_INIT_ATTEMPTS` and actually counts a new attempt
(the re-entrancy guard not being held), the session store is erased and the
counter is reset to 0 before the new attempt is counted, so it ends at 1. -/
theorem attemptCounter_bounded :
    (∀ s : MgrState, Reachable s →
      s.initializationAttempts ≤ MAX_INIT_ATTEMPTS) ∧
    (∀ s : MgrState, MAX_INIT_ATTEMPTS ≤ s.initializationAttempts →
      s.isInitializing = false →
      (initializeClient s).eraseCount = s.eraseCount + 1 ∧
      (initializeClient s).initializationAttempts = 0 + 1) := by
  refine ⟨fun _ h => reachable_attempts_le h, fun s hge hinit => ?_⟩
  unfold initializeClient
  rw [if_neg (by simp [hinit])]
  simp only
  rw [if_pos hge]
  exact ⟨rfl, rfl⟩

/-- Witness for C1: a concrete reachable state satisfies the bound, and a
concrete state at the ceiling is erased and reset on the next attempt. -/
theorem attemptCounter_bounded_witness :
    (initializeClient initialState).initializationAttempts ≤
      MAX_INIT_ATTEMPTS ∧
    (initializeClient
        (⟨3, false, none, 3, false, 2, [], Phase.failed⟩ : MgrState)).eraseCount
      = 2 + 1 ∧
    (initializeClient
        (⟨3, false, none, 3, false, 2, [], Phase.failed⟩ : MgrState)).initializationAttempts
      = 0 + 1 :=
  ⟨attemptCounter_bounded.1 (initializeClient initialState)
      (Reachable.step Reachable.start (Step.init initialState)),
   (attemptCounter_bounded.2 ⟨3, false, none, 3, false, 2, [], Phase.failed⟩
      (by decide) rfl).1,
   (attemptCounter_bounded.2 ⟨3, false, none, 3, false, 2, [], Phase.failed⟩
      (by decide) rfl).2⟩

/-- C2: on auth_failure below the ceiling the manager clears the
initialization lock, erases the session store, and schedules exactly one
retry after the fixed 5000 ms delay; on auth_failure at the ceiling it clears
the lock but schedules nothing, leaving the state failed. -/
theorem authFailure_retry_policy :
    (∀ s : MgrState, s.initializationAttempts < MAX_INIT_ATTEMPTS →
      (onAuthFailure s).isInitializing = false ∧
      (onAuthFailure s).eraseCount = s.eraseCount + 1 ∧
      (onAuthFailure s).scheduled = s.scheduled ++ [AUTH_FAILURE_RETRY_DELAY]) ∧
    (∀ s : MgrState, s.initializationAttempts = MAX_INIT_ATTEMPTS →
      (onAuthFailure s).isInitializing = false ∧
      (onAuthFailure s).isClientReady = false ∧
      (onAuthFailure s).scheduled = s.scheduled ∧
      (onAuthFailure s).phase = Phase.failed) := by
  constructor
  · intro s hlt
    unfold onAuthFailure
    rw [if_pos hlt]
    exact ⟨rfl, rfl, rfl⟩
  · intro s heq
    unfold onAuthFailure
    rw [if_neg (by omega)]
    exact ⟨rfl, rfl, rfl, rfl⟩

/-- Witness for C2: evaluated after a first failed attempt (counter 1) and at
an exhausted state (counter 3). -/
theorem authFailure_retry_policy_witness :
    ((onAuthFailure (initializeClient initialState)).isInitializing = false ∧
     (onAuthFailure (initializeClient initialState)).eraseCount =
       (initializeClient initialState).eraseCount + 1 ∧
     (onAuthFailure (initializeClient initialState)).scheduled =
       (initializeClient initialState).scheduled ++
         [AUTH_FAILURE_RETRY_DELAY]) ∧
    ((onAuthFailure
        (⟨3, false, none, 3, true, 2, [], Phase.awaitingAuth⟩ : MgrState)).isInitializing
       = false ∧
     (onAuthFailure
        (⟨3, false, none, 3, true, 2, [], Phase.awaitingAuth⟩ : MgrState)).isClientReady
       = false ∧
     (onAuthFailure
        (⟨3, false, none, 3, true, 2, [], Phase.awaitingAuth⟩ : MgrState)).scheduled
       = [] ∧
     (onAuthFailure
        (⟨3, false, none, 3, true, 2, [], Phase.awaitingAuth⟩ : MgrState)).phase
       = Phase.failed) :=
  ⟨authFailure_retry_policy.1 (initializeClient initialState) (by decide),
   authFailure_retry_policy.2 ⟨3, false, none, 3, true, 2, [], Phase.awaitingAuth⟩
     rfl⟩

/-- The run of src/app.js lines 89-142 on the scenario of claim C3: a fresh
initialization with maxAttempts = 3, then three consecutive auth_failure
events, the scheduled retry firing after each failure that schedules one. -/
def threeFailuresTrace : MgrState :=
  onAuthFailure (fireScheduled (onAuthFailure (fireScheduled (onAuthFailure
    (initializeClient initialState)))))

/-- Counterexample to C3: after 3 consecutive auth_failure events the attempt
counter ends at 3, not 0 — the reset to 0 only happens on the next
`initializeClient` entry, which is never scheduled. -/
theorem threeFailures_counter_not_zero :
    threeFailuresTrace.initializationAttempts ≠ 0 := by decide

/-- C3 amended: starting from a fresh initialization with maxAttempts = 3,
after 3 consecutive auth_failure events (each followed by its scheduled retry
when one is scheduled), the session-store erase has been called at least once,
the attempt counter ends at maxAttempts (3), and no further automatic retry
is scheduled without manual intervention. -/
theorem threeFailures_outcome :
    1 ≤ threeFailuresTrace.eraseCount ∧
    threeFailuresTrace.initializationAttempts = MAX_INIT_ATTEMPTS ∧
    threeFailuresTrace.scheduled = [] ∧
    threeFailuresTrace.isInitializing = false ∧
    threeFailuresTrace.phase = Phase.failed := by decide

/-- C4: every disconnected(reason) event clears readiness; reason "LOGOUT"
schedules no reconnection; any other reason schedules exactly one
reconnection, after a fixed delay strictly longer than the auth-failure retry
delay. -/
theorem disconnected_reconnect_policy :
    (∀ (s : MgrState) (reason : String),
      (onDisconnected reason s).isClientReady = false) ∧
    (∀ s : MgrState, (onDisconnected "LOGOUT" s).scheduled = s.scheduled) ∧
    (∀ (s : MgrState) (reason : String), reason ≠ "LOGOUT" →
      (onDisconnected reason s).scheduled =
        s.scheduled ++ [DISCONNECT_RETRY_DELAY]) ∧
    AUTH_FAILURE_RETRY_DELAY < DISCONNECT_RETRY_DELAY := by
  refine ⟨fun s reason => ?_, fun s => ?_, fun s reason h => ?_, by decide⟩
  · unfold onDisconnected
    split <;> rfl
  · rfl
  · unfold onDisconnected
    rw [if_neg h]

/-- Witness for C4: evaluated at the initial state for reasons "LOGOUT" and
"NETWORK_ERROR". -/
theorem disconnected_reconnect_policy_witness :
    (onDisconnected "NETWORK_ERROR" initialState).isClientReady = false ∧
    (onDisconnected "LOGOUT" initialState).scheduled = initialState.scheduled ∧
    (onDisconnected "NETWORK_ERROR" initialState).scheduled =
      initialState.scheduled ++ [DISCONNECT_RETRY_DELAY] :=
  ⟨disconnected_reconnect_policy.1 initialState "NETWORK_ERROR",
   disconnected_reconnect_policy.2.1 initialState,
   disconnected_reconnect_policy.2.2.1 initialState "NETWORK_ERROR"
     (by decide)⟩

/-- C5: calling `initializeClient` while the initialization lock is held is a
no-op — the returned state is the input state, so no client is created, the
attempt counter is unchanged, and no other field is modified. -/
theorem startInitialization_reentrancy_noop (s : MgrState)
    (h : s.isInitializing = true) : initializeClient s = s := by
  unfold initializeClient
  rw [if_pos h]

/-- Witness for C5: evaluated at the state reached after a fresh
initialization followed by a qr event (lock still held). -/
theorem startInitialization_reentrancy_noop_witness :
    initializeClient (onQr "QR1" (initializeClient initialState)) =
      onQr "QR1" (initializeClient initialState) :=
  startInitialization_reentrancy_noop _ rfl

/-- Counterexample to C6: in the reachable state holding the initialization
lock (fresh initialization, then a qr event), the restart endpoint does not
create a new Capability Client — `initializeClient` is still blocked by the
re-entrancy guard (src/app.js lines 84-87), and the lock stays held. -/
theorem restart_blocked_by_lock :
    (postRestart (onQr "QR1" (initializeClient initialState))).clientGen =
      (onQr "QR1" (initializeClient initialState)).clientGen ∧
    (postRestart (onQr "QR1" (initializeClient initialState))).isInitializing
      = true := by decide

/-- C6 amended: the restart endpoint clears readiness, resets the attempt
counter to 0, tears down the current client, and calls
`initializeClient()` — which remains subject to the re-entrancy guard: when
the lock is free a new Capability Client is created (one fresh attempt), but
when the lock is held the call is a no-op and no new client is created. -/
theorem restart_behavior (s : MgrState) :
    postRestart s =
      if s.isInitializing then
        { s with isClientReady := false, initializationAttempts := 0 }
      else
        { s with
          isClientReady := false
          initializationAttempts := 1
          isInitializing := true
          clientGen := s.clientGen + 1
          phase := Phase.initializing } := by
  unfold postRestart initializeClient
  cases h : s.isInitializing <;> simp [h, MAX_INIT_ATTEMPTS]

/-- C7: the readiness gate passes exactly when the state is ready; otherwise
it rejects with status 503, the current QR payload, and a message that says
to scan the code when a payload is present and that the client is still
initializing when none is.  The gate is a pure read of the state (it is a
function of the state and returns no modified state). -/
theorem readiness_gate_contract :
    (∀ s : MgrState, requireClientReady s = none ↔ s.isClientReady = true) ∧
    (∀ (s : MgrState) (q : String), s.isClientReady = false →
      s.qrCodeString = some q → q ≠ "" →
      requireClientReady s =
        some
          { status := 503
            error := "WhatsApp client not ready"
            qrCode := some q
            message := "Please scan QR code" }) ∧
    (∀ s : MgrState, s.isClientReady = false → s.qrCodeString = none →
      requireClientReady s =
        some
          { status := 503
            error := "WhatsApp client not ready"
            qrCode := none
            message := "Client initializing..." }) := by
  refine ⟨fun s => ?_, fun s q hr hq hne => ?_, fun s hr hq => ?_⟩
  · unfold requireClientReady
    cases h : s.isClientReady <;> simp [h]
  · unfold requireClientReady
    rw [if_neg (by simp [hr])]
    simp [hq, jsTruthy, hne]
  · unfold requireClientReady
    rw [if_neg (by simp [hr])]
    simp [hq, jsTruthy]

/-- Witness for C7: evaluated at the AwaitingAuth state after a qr event and
at the initial state with no payload yet. -/
theorem readiness_gate_contract_witness :
    requireClientReady (onQr "QR1" (initializeClient initialState)) =
      some
        { status := 503
          error := "WhatsApp client not ready"
          qrCode := some "QR1"
          message := "Please scan QR code" } ∧
    requireClientReady initialState =
      some
        { status := 503
          error := "WhatsApp client not ready"
          qrCode := none
          message := "Client initializing..." } :=
  ⟨readiness_gate_contract.2.1 (onQr "QR1" (initializeClient initialState))
      "QR1" rfl rfl (by decide),
   readiness_gate_contract.2.2 initialState rfl rfl⟩

/-- Counterexample to C8: after a fresh initialization, a qr event and then
an auth_failure event, the state is Failed but the QR payload is still the
stored code — the auth_failure handler (src/app.js lines 131-142) never
clears `qrCodeString`, so the payload is not null in the Failed state. -/
theorem qr_survives_auth_failure :
    (onAuthFailure (onQr "ABC" (initializeClient initialState))).phase =
      Phase.failed ∧
    (onAuthFailure (onQr "ABC" (initializeClient initialState))).qrCodeString
      ≠ none := by decide

/-- C8 amended: in every reachable state the QR payload is null while the
state is Authenticated or Ready (the transitions to those states clear it),
but the auth_failure and disconnected handlers leave the payload untouched,
so it may remain non-null in the Failed and Disconnected states reached from
AwaitingAuth. -/
theorem qr_payload_clearing :
    (∀ s : MgrState, Reachable s →
      s.phase = Phase.authenticated ∨ s.phase = Phase.ready →
      s.qrCodeString = none) ∧
    (∀ s : MgrState, (onAuthFailure s).qrCodeString = s.qrCodeString) ∧
    (∀ (s : MgrState) (reason : String),
      (onDisconnected reason s).qrCodeString = s.qrCodeString) := by
  refine ⟨fun _ h => reachable_qr_phase h, fun s => ?_, fun s reason => ?_⟩
  · unfold onAuthFailure
    split <;> rfl
  · unfold onDisconnected
    split <;> rfl

/-- Witness for C8 amended: the Ready state reached by a full happy path has
a null QR payload. -/
theorem qr_payload_clearing_witness :
    (onReady (onAuthenticated (onQr "QR1"
      (initializeClient initialState)))).qrCodeString = none :=
  qr_payload_clearing.1 _
    (Reachable.step
      (Reachable.step
        (Reachable.step (Reachable.step Reachable.start (Step.init initialState))
          (Step.qr "QR1" (initializeClient initialState)))
        (Step.authenticated (onQr "QR1" (initializeClient initialState))))
      (Step.ready (onAuthenticated (onQr "QR1" (initializeClient initialState)))))
    (Or.inr rfl)

/-- The run of src/app.js lines 112-129 on the scenario of claim C9: one
initialization sequence, then the events qr("ABC123"), authenticated(),
ready(). -/
def happyPathTrace : MgrState :=
  onReady (onAuthenticated (onQr "ABC123" (initializeClient initialState)))

/-- C9: the happy path ends Ready with a null QR payload, attempt counter 0
and the initializing flag false, and the published health status is
"ready". -/
theorem happy_path_final_status :
    happyPathTrace.isClientReady = true ∧
    happyPathTrace.qrCodeString = none ∧
    happyPathTrace.initializationAttempts = 0 ∧
    happyPathTrace.isInitializing = false ∧
    happyPathTrace.phase = Phase.ready ∧
    (getHealth happyPathTrace).status = "ready" := by decide

/-- C10: when the capability logout call fails on a ready client, the logout
endpoint leaves the whole state unchanged — in particular readiness still
reports ready — and the error propagates through the error middleware as a
500 operation-failure response carrying the error message. -/
theorem logout_error_preserves_readiness (s : MgrState) (e : String)
    (h : s.isClientReady = true) :
    (postLogout (Except.error e) s).1 = s ∧
    (postLogout (Except.error e) s).1.isClientReady = true ∧
    (postLogout (Except.error e) s).2 = LogoutResponse.serverError e := by
  unfold postLogout requireClientReady
  rw [if_pos h]
  exact ⟨rfl, h, rfl⟩

/-- Witness for C10: evaluated on the Ready state of a fresh session with a
failing capability logout. -/
theorem logout_error_preserves_readiness_witness :
    (postLogout (Except.error "logout failed")
        (onReady (initializeClient initialState))).1 =
      onReady (initializeClient initialState) ∧
    (postLogout (Except.error "logout failed")
        (onReady (initializeClient initialState))).1.isClientReady = true ∧
    (postLogout (Except.error "logout failed")
        (onReady (initializeClient initialState))).2 =
      LogoutResponse.serverError "logout failed" :=
  logout_error_preserves_readiness (onReady (initializeClient initialState))
    "logout failed" rfl
